import Mathlib

/-!
Verification of the signing-key abstraction layer of `rustls-rustcrypto`
(`src/sign.rs`): the key-type dispatcher (`any_supported_type`,
`any_ecdsa_type`, `any_eddsa_type`) and the two generic signer adapters
(`GenericSigner`, `GenericRandomizedSigner`).

The embedding is shallow.  Rust `Result<T, rustls::Error>` becomes
`Except RError α`; `Result::or_else`, `Result::map`, `Result::map_err`
become the explicit combinators `rOrElse`, `rMap`, `rMapErr` below.
Compile-time `#[cfg(feature = ...)]` gates become `Bool` parameters
(`fp256`, `fp384`, `fx25519`): a `true` flag includes the corresponding
block exactly as the Rust block is included when the feature is enabled.
The per-algorithm `TryFrom` key constructors are external collaborators
(they live in `src/sign/{rsa,ecdsa,eddsa}.rs`, outside the core under
verification), so they are parameters of the dispatcher, bundled in
`Ctors`.
-/

namespace RustlsRustcrypto

/-- `rustls::Error` as used by `sign.rs`: only the `General(String)`
variant appears in this file. -/
inductive RError where
  | general (msg : String)
deriving DecidableEq, Repr

/-- `pki_types::PrivateKeyDer`: a byte blob tagged with its container
format.  Bytes are modelled as `List Nat`. -/
inductive PrivateKeyDer where
  | pkcs1 (bytes : List Nat)
  | sec1 (bytes : List Nat)
  | pkcs8 (bytes : List Nat)
deriving DecidableEq, Repr

/-- The wire-level signature schemes relevant to this crate
(`rustls::SignatureScheme` constants). -/
inductive SignatureScheme where
  | rsa_pkcs1_sha256
  | rsa_pkcs1_sha384
  | rsa_pkcs1_sha512
  | rsa_pss_sha256
  | rsa_pss_sha384
  | rsa_pss_sha512
  | ecdsa_nistp256_sha256
  | ecdsa_nistp384_sha384
  | ed25519
deriving DecidableEq, Repr

/-- The algorithm family a resolved key belongs to. -/
inductive AlgorithmFamily where
  | rsa
  | ecdsaP256
  | ecdsaP384
  | ed25519
deriving DecidableEq, Repr

/-- The observable content of an `Arc<dyn SigningKey>` handle: which
family it resolved to and which signature schemes it supports. -/
structure SigningKeyH where
  family : AlgorithmFamily
  schemes : List SignatureScheme
deriving DecidableEq, Repr

/-- `Result::or_else` on `Except` (Rust semantics: keep an `Ok`,
run the closure on the error of an `Err`). -/
def rOrElse (r : Except RError SigningKeyH)
    (f : RError → Except RError SigningKeyH) : Except RError SigningKeyH :=
  match r with
  | .ok a => .ok a
  | .error e => f e

/-- `Result::map` on `Except`. -/
def rMap {α β : Type} (r : Except RError α) (f : α → β) : Except RError β :=
  match r with
  | .ok a => .ok (f a)
  | .error e => .error e

/-- `Result::map_err` on `Except`. -/
def rMapErr {ε ε' α : Type} (r : Except ε α) (f : ε → ε') : Except ε' α :=
  match r with
  | .ok a => .ok a
  | .error e => .error (f e)

/-- The external per-family key constructors
(`RsaSigningKey::try_from`, `EcdsaSigningKeyP256::try_from`,
`EcdsaSigningKeyP384::try_from`, `Ed25519SigningKey::try_from`).
Their byte-level parsing is an out-of-scope collaborator, so the
dispatcher is parameterized over them.  The `Arc::new(x) as _`
coercion of a successful parse into the trait-object handle is the
identity in this model (each constructor already yields the handle's
observable content). -/
structure Ctors where
  rsaTryFrom : PrivateKeyDer → Except RError SigningKeyH
  p256TryFrom : PrivateKeyDer → Except RError SigningKeyH
  p384TryFrom : PrivateKeyDer → Except RError SigningKeyH
  ed25519TryFrom : PrivateKeyDer → Except RError SigningKeyH

/-- `any_ecdsa_type` from `src/sign.rs`: starts from
`Err(Error::General("not supported"))` and, for each compiled-in curve
(P-256 first, then P-384), replaces an error result with that curve's
constructor result via `or_else`. -/
def any_ecdsa_type (fp256 fp384 : Bool) (c : Ctors) (der : PrivateKeyDer) :
    Except RError SigningKeyH :=
  let result : Except RError SigningKeyH := .error (.general "not supported")
  let result := if fp256 then rOrElse result (fun _ => c.p256TryFrom der) else result
  let result := if fp384 then rOrElse result (fun _ => c.p384TryFrom der) else result
  result

/-- `any_eddsa_type` from `src/sign.rs`: starts from
`Err(Error::General("not supported"))` and, when the `x25519` feature is
compiled in, replaces an error result with the Ed25519 constructor's
result via `or_else`. -/
def any_eddsa_type (fx25519 : Bool) (c : Ctors) (der : PrivateKeyDer) :
    Except RError SigningKeyH :=
  let result : Except RError SigningKeyH := .error (.general "not supported")
  let result := if fx25519 then rOrElse result (fun _ => c.ed25519TryFrom der) else result
  result

/-- `any_supported_type` from `src/sign.rs`: try RSA, `or_else` the
ECDSA sub-dispatcher, `or_else` the EdDSA sub-dispatcher. -/
def any_supported_type (fp256 fp384 fx25519 : Bool) (c : Ctors)
    (der : PrivateKeyDer) : Except RError SigningKeyH :=
  rOrElse
    (rOrElse (rMap (c.rsaTryFrom der) id)
      (fun _ => any_ecdsa_type fp256 fp384 c der))
    (fun _ => any_eddsa_type fx25519 c der)

/-- The ordered list of results of the constructors the compiled feature
set enables, in the fixed dispatch order RSA, P-256, P-384, Ed25519
(disabled families absent, enabled ones never reordered). -/
def enabledResults (fp256 fp384 fx25519 : Bool) (c : Ctors)
    (der : PrivateKeyDer) : List (Except RError SigningKeyH) :=
  [c.rsaTryFrom der]
    ++ (if fp256 then [c.p256TryFrom der] else [])
    ++ (if fp384 then [c.p384TryFrom der] else [])
    ++ (if fx25519 then [c.ed25519TryFrom der] else [])

/-- First-success-wins over an ordered list of constructor results:
the handle of the first `ok`, ignoring everything after it. -/
def firstOk : List (Except RError SigningKeyH) → Option SigningKeyH
  | [] => none
  | .ok h :: _ => some h
  | .error _ :: rest => firstOk rest

/-! ## Signer adapters

`GenericSigner<S, T>` wraps a key implementing `signature::Signer<S>`
(deterministic); `GenericRandomizedSigner<S, T>` wraps a key
implementing `RandomizedSigner<S>`.  The `PhantomData<S>` marker field
is erased (it is zero-sized); the trait dictionaries become explicit
`SignerImpl` / `RandSignerImpl` records.  `signature::Error` is modelled
as `SigError` (an opaque payload, here a `String`, quantified over in
the theorems).  `rand_core::OsRng` — the process-wide secure random
source, handed to the randomized primitive by `&mut` reference — is
modelled as an explicit `RngState`: an entropy stream plus the position
of the next unconsumed value; the primitive returns the advanced
state. -/

/-- `signature::Error`: opaque failure payload of the signing
primitives. -/
structure SigError where
  payload : String
deriving DecidableEq, Repr

/-- The state of the process-wide secure random source
(`rand_core::OsRng`): an entropy stream and the position of the next
value that has not yet been handed out. -/
structure RngState where
  stream : Nat → Nat
  pos : Nat

/-- Dictionary for `signature::Signer<S>` plus `SignatureEncoding`
(`try_sign` and `to_vec`) at key type `T` and signature type `S`. -/
structure SignerImpl (S T : Type) where
  try_sign : T → List Nat → Except SigError S
  to_vec : S → List Nat

/-- Dictionary for `signature::RandomizedSigner<S>` plus
`SignatureEncoding` (`try_sign_with_rng` and `to_vec`): the primitive
receives the RNG by mutable reference, so it returns the advanced RNG
state alongside its result. -/
structure RandSignerImpl (S T : Type) where
  try_sign_with_rng : T → RngState → List Nat → Except SigError S × RngState
  to_vec : S → List Nat

/-- `GenericSigner<S, T>` from `src/sign.rs` (deterministic adapter):
a shared key and the bound `SignatureScheme`.  The `Arc` sharing and
the `PhantomData<S>` marker are erased. -/
structure GenericSigner (S T : Type) where
  key : T
  scheme : SignatureScheme

/-- `GenericRandomizedSigner<S, T>` from `src/sign.rs` (randomized
adapter): a shared key and the bound `SignatureScheme`. -/
structure GenericRandomizedSigner (S T : Type) where
  key : T
  scheme : SignatureScheme

/-- `GenericSigner::sign`:
`self.key.try_sign(message).map_err(|_| Error::General("signing failed")).map(|sig| sig.to_vec())`. -/
def GenericSigner.sign {S T : Type} (impl : SignerImpl S T)
    (self : GenericSigner S T) (message : List Nat) :
    Except RError (List Nat) :=
  rMap (rMapErr (impl.try_sign self.key message)
    (fun _ => RError.general "signing failed")) impl.to_vec

/-- `GenericRandomizedSigner::sign`:
`self.key.try_sign_with_rng(&mut rand_core::OsRng, message).map_err(|_| Error::General("signing failed")).map(|sig| sig.to_vec())`.
The `&mut OsRng` argument makes this a state transformer on
`RngState`. -/
def GenericRandomizedSigner.sign {S T : Type} (impl : RandSignerImpl S T)
    (self : GenericRandomizedSigner S T) (message : List Nat)
    (rng : RngState) : Except RError (List Nat) × RngState :=
  let step := impl.try_sign_with_rng self.key rng message
  (rMap (rMapErr step.1 (fun _ => RError.general "signing failed")) impl.to_vec,
    step.2)

/-! ### Call-counting instrumentation

To state "`sign` calls the underlying primitive exactly once per
invocation", the primitive call site is routed through an oracle that
increments a call counter; the instrumented body otherwise mirrors
`sign` verbatim, and agreement with `sign` is proved. -/

/-- One invocation of the deterministic primitive, counted. -/
def callTrySign {S T : Type} (impl : SignerImpl S T) (key : T)
    (message : List Nat) (calls : Nat) : Except SigError S × Nat :=
  (impl.try_sign key message, calls + 1)

/-- `GenericSigner::sign` with its single primitive call site counted. -/
def GenericSigner.signCounted {S T : Type} (impl : SignerImpl S T)
    (self : GenericSigner S T) (message : List Nat) (calls : Nat) :
    Except RError (List Nat) × Nat :=
  let step := callTrySign impl self.key message calls
  (rMap (rMapErr step.1 (fun _ => RError.general "signing failed")) impl.to_vec,
    step.2)

/-- One invocation of the randomized primitive, counted. -/
def callTrySignWithRng {S T : Type} (impl : RandSignerImpl S T) (key : T)
    (rng : RngState) (message : List Nat) (calls : Nat) :
    (Except SigError S × RngState) × Nat :=
  (impl.try_sign_with_rng key rng message, calls + 1)

/-- `GenericRandomizedSigner::sign` with its single primitive call site
counted. -/
def GenericRandomizedSigner.signCounted {S T : Type}
    (impl : RandSignerImpl S T) (self : GenericRandomizedSigner S T)
    (message : List Nat) (rng : RngState) (calls : Nat) :
    (Except RError (List Nat) × RngState) × Nat :=
  let step := callTrySignWithRng impl self.key rng message calls
  ((rMap (rMapErr step.1.1 (fun _ => RError.general "signing failed")) impl.to_vec,
    step.1.2), step.2)

/-! ### Frame worlds

A `sign` call in Rust receives the adapter by `&self` (read-only) and
the RNG by `&mut` (the only mutable resource).  The worlds below pair
the adapter with that mutable resource so the frame property — `sign`
leaves the adapter itself unchanged — is statable. -/

/-- World of a deterministic-adapter `sign` call: the adapter plus the
process-wide RNG.  The RNG is present in the process, but the
deterministic `sign` body never mentions it. -/
structure DetWorld (S T : Type) where
  signer : GenericSigner S T
  rng : RngState

/-- A deterministic `sign` call as a step on its world: the body of
`GenericSigner::sign` reads `&self` only, so nothing in the world is
written. -/
def detSignStep {S T : Type} (impl : SignerImpl S T) (message : List Nat)
    (w : DetWorld S T) : Except RError (List Nat) × DetWorld S T :=
  (GenericSigner.sign impl w.signer message, w)

/-- World of a randomized-adapter `sign` call: the adapter plus the
process-wide RNG, the sole mutable resource. -/
structure RandWorld (S T : Type) where
  signer : GenericRandomizedSigner S T
  rng : RngState

/-- A randomized `sign` call as a step on its world: only the RNG
component is written. -/
def randSignStep {S T : Type} (impl : RandSignerImpl S T)
    (message : List Nat) (w : RandWorld S T) :
    Except RError (List Nat) × RandWorld S T :=
  let step := GenericRandomizedSigner.sign impl w.signer message w.rng
  (step.1, { signer := w.signer, rng := step.2 })

/-! ### Scheme selection -/

/-- Modelled from the spec: the per-algorithm `choose_scheme`
implementations live in `src/sign/rsa.rs`, `src/sign/ecdsa.rs` and
`src/sign/eddsa.rs`, which are declared (`pub mod ...`) but not present
in the provided source.  Per the spec, `chooseSigner(offered)` iterates
`offered` in the caller-given order and returns a signer bound to the
first scheme also present in the handle's supported set, or nothing if
no intersection exists.  The returned signer is determined by the
handle's key plus the bound scheme, so the model returns the bound
scheme. -/
def SigningKeyH.chooseSigner (h : SigningKeyH)
    (offered : List SignatureScheme) : Option SignatureScheme :=
  offered.find? (fun s => h.schemes.contains s)

/-! ## Helper lemmas -/

/-- `any_eddsa_type`, computed: the Ed25519 constructor's verbatim
result when `x25519` is compiled in, the generic failure otherwise. -/
lemma any_eddsa_type_eq (fx25519 : Bool) (c : Ctors) (der : PrivateKeyDer) :
    any_eddsa_type fx25519 c der =
      if fx25519 then c.ed25519TryFrom der
      else .error (.general "not supported") := by
  cases fx25519 <;> simp [any_eddsa_type, rOrElse]

/-- `any_ecdsa_type`, computed by feature set. -/
lemma any_ecdsa_type_eq (fp256 fp384 : Bool) (c : Ctors) (der : PrivateKeyDer) :
    any_ecdsa_type fp256 fp384 c der =
      match fp256, fp384 with
      | false, false => .error (.general "not supported")
      | true, false => c.p256TryFrom der
      | false, true => c.p384TryFrom der
      | true, true => rOrElse (c.p256TryFrom der) (fun _ => c.p384TryFrom der) := by
  cases fp256 <;> cases fp384 <;> simp [any_ecdsa_type, rOrElse]

/-! ## Claim theorems: dispatcher -/

/-- C9: with both ECDSA features compiled out, `any_ecdsa_type` returns
the "not supported" error for every input (and every constructor
behavior, i.e. without examining the bytes), and with `x25519` compiled
out, `any_eddsa_type` does the same. -/
theorem disabled_family_rejects_all (c : Ctors) (der : PrivateKeyDer) :
    any_ecdsa_type false false c der = .error (.general "not supported")
    ∧ any_eddsa_type false c der = .error (.general "not supported") :=
  ⟨rfl, rfl⟩

/-- C8: the RSA probe is unconditional: under every feature
configuration, an RSA constructor success is returned directly
(RSA is attempted, and attempted first), while with every feature
disabled only the RSA probe remains: the result is RSA's success or
else the generic "not supported" failure. -/
theorem rsa_probe_unconditional (fp256 fp384 fx25519 : Bool) (c : Ctors)
    (der : PrivateKeyDer) :
    (∀ h, c.rsaTryFrom der = .ok h →
      any_supported_type fp256 fp384 fx25519 c der = .ok h)
    ∧ any_supported_type false false false c der
        = rOrElse (c.rsaTryFrom der) (fun _ => .error (.general "not supported")) := by
  constructor
  · intro h hh
    simp [any_supported_type, rMap, rOrElse, hh]
  · cases hr : c.rsaTryFrom der <;>
      simp [any_supported_type, any_ecdsa_type, any_eddsa_type, rOrElse, rMap, hr]

/-- Witness for `rsa_probe_unconditional` at a concrete input. -/
theorem rsa_probe_unconditional_witness :
    any_supported_type false true false
      { rsaTryFrom := fun _ => .ok ⟨.rsa, [.rsa_pkcs1_sha256]⟩
        p256TryFrom := fun _ => .error (.general "p256 parse error")
        p384TryFrom := fun _ => .error (.general "p384 parse error")
        ed25519TryFrom := fun _ => .error (.general "ed25519 parse error") }
      (.pkcs1 [48, 1]) = .ok ⟨.rsa, [.rsa_pkcs1_sha256]⟩ :=
  (rsa_probe_unconditional false true false _ (.pkcs1 [48, 1])).1
    ⟨.rsa, [.rsa_pkcs1_sha256]⟩ rfl

/-- C1: `any_supported_type` succeeds exactly when some compiled-in
constructor succeeds, returning the handle of the first success in the
fixed order RSA, ECDSA-P256, ECDSA-P384, Ed25519 with disabled families
skipped (`firstOk` over `enabledResults`); and later constructors are
never invoked after a success: once RSA (resp. P-256, P-384) has
succeeded, the result is unchanged under arbitrary replacement of every
later constructor. -/
theorem dispatch_fixed_order_first_success (fp256 fp384 fx25519 : Bool)
    (c : Ctors) (der : PrivateKeyDer) :
    (∀ h, any_supported_type fp256 fp384 fx25519 c der = .ok h
        ↔ firstOk (enabledResults fp256 fp384 fx25519 c der) = some h)
    ∧ (∀ c' : Ctors, c'.rsaTryFrom der = c.rsaTryFrom der →
        (c.rsaTryFrom der).isOk = true →
        any_supported_type fp256 fp384 fx25519 c' der
          = any_supported_type fp256 fp384 fx25519 c der)
    ∧ (∀ c' : Ctors, c'.rsaTryFrom der = c.rsaTryFrom der →
        c'.p256TryFrom der = c.p256TryFrom der →
        fp256 = true → (c.p256TryFrom der).isOk = true →
        any_supported_type fp256 fp384 fx25519 c' der
          = any_supported_type fp256 fp384 fx25519 c der)
    ∧ (∀ c' : Ctors, c'.rsaTryFrom der = c.rsaTryFrom der →
        c'.p256TryFrom der = c.p256TryFrom der →
        c'.p384TryFrom der = c.p384TryFrom der →
        fp384 = true → (c.p384TryFrom der).isOk = true →
        any_supported_type fp256 fp384 fx25519 c' der
          = any_supported_type fp256 fp384 fx25519 c der) := by
  refine ⟨?_, ?_, ?_, ?_⟩
  · intro h
    cases fp256 <;> cases fp384 <;> cases fx25519 <;>
      cases hr : c.rsaTryFrom der <;>
      cases hp : c.p256TryFrom der <;>
      cases hq : c.p384TryFrom der <;>
      cases he : c.ed25519TryFrom der <;>
      simp [any_supported_type, any_ecdsa_type, any_eddsa_type,
        enabledResults, firstOk, rOrElse, rMap, hr, hp, hq, he]
  · intro c' hrsa hok
    cases hr : c.rsaTryFrom der with
    | ok h =>
      rw [hr] at hrsa
      simp [any_supported_type, rMap, rOrElse, hr, hrsa]
    | error e => rw [hr] at hok; simp [Except.isOk, Except.toBool] at hok
  · intro c' hrsa hp256 hfp hok
    subst hfp
    cases hp : c.p256TryFrom der with
    | ok h2 =>
      rw [hp] at hp256
      cases hr : c.rsaTryFrom der <;> rw [hr] at hrsa <;>
        cases fp384 <;>
        simp [any_supported_type, any_ecdsa_type, any_eddsa_type,
          rOrElse, rMap, hr, hrsa, hp, hp256]
    | error e => rw [hp] at hok; simp [Except.isOk, Except.toBool] at hok
  · intro c' hrsa hp256 hp384 hfq hok
    subst hfq
    cases hq : c.p384TryFrom der with
    | ok h3 =>
      rw [hq] at hp384
      cases hr : c.rsaTryFrom der <;> rw [hr] at hrsa <;>
        cases fp256 <;>
        cases hp : c.p256TryFrom der <;> rw [hp] at hp256 <;>
        simp [any_supported_type, any_ecdsa_type, any_eddsa_type,
          rOrElse, rMap, hr, hrsa, hp, hp256, hq, hp384]
    | error e => rw [hq] at hok; simp [Except.isOk, Except.toBool] at hok

/-- Witness for `dispatch_fixed_order_first_success`: a concrete input
accepted by both the P-256 and P-384 constructors resolves to P-256
(the first enabled success), and replacing the Ed25519 constructor
afterwards does not change the result. -/
theorem dispatch_fixed_order_first_success_witness :
    any_supported_type true true true
      { rsaTryFrom := fun _ => .error (.general "rsa oid mismatch")
        p256TryFrom := fun _ => .ok ⟨.ecdsaP256, [.ecdsa_nistp256_sha256]⟩
        p384TryFrom := fun _ => .ok ⟨.ecdsaP384, [.ecdsa_nistp384_sha384]⟩
        ed25519TryFrom := fun _ => .error (.general "ed25519 parse error") }
      (.sec1 [4, 2]) = .ok ⟨.ecdsaP256, [.ecdsa_nistp256_sha256]⟩ := by
  have h := (dispatch_fixed_order_first_success true true true
    { rsaTryFrom := fun _ => .error (.general "rsa oid mismatch")
      p256TryFrom := fun _ => .ok ⟨.ecdsaP256, [.ecdsa_nistp256_sha256]⟩
      p384TryFrom := fun _ => .ok ⟨.ecdsaP384, [.ecdsa_nistp384_sha384]⟩
      ed25519TryFrom := fun _ => .error (.general "ed25519 parse error") }
    (.sec1 [4, 2])).1 ⟨.ecdsaP256, [.ecdsa_nistp256_sha256]⟩
  exact h.mpr (by decide)

/-- A constructor bundle on which every family's constructor fails,
each with its own distinguishable parse error. -/
def allFailCtors : Ctors where
  rsaTryFrom := fun _ => .error (.general "rsa oid mismatch")
  p256TryFrom := fun _ => .error (.general "p256 parse error")
  p384TryFrom := fun _ => .error (.general "p384 parse error")
  ed25519TryFrom := fun _ => .error (.general "ed25519 parse error")

/-- C2 counterexample: with all features compiled in and every
constructor failing on the input, `any_supported_type` does not return
the generic "not supported" failure — it forwards the Ed25519
constructor's own error verbatim. -/
theorem all_fail_error_counterexample :
    ((allFailCtors.rsaTryFrom (.pkcs8 [0])).isOk = false
      ∧ (allFailCtors.p256TryFrom (.pkcs8 [0])).isOk = false
      ∧ (allFailCtors.p384TryFrom (.pkcs8 [0])).isOk = false
      ∧ (allFailCtors.ed25519TryFrom (.pkcs8 [0])).isOk = false)
    ∧ any_supported_type true true true allFailCtors (.pkcs8 [0])
        = .error (.general "ed25519 parse error")
    ∧ RError.general "ed25519 parse error" ≠ RError.general "not supported" := by
  refine ⟨⟨rfl, rfl, rfl, rfl⟩, rfl, ?_⟩
  decide

/-- C2 (amended): when every compiled-in constructor fails,
`any_supported_type` returns a failure that carries no information
about why the RSA or ECDSA candidates failed: it is the Ed25519
constructor's error verbatim when `x25519` is compiled in, and the
single generic "not supported" failure otherwise. -/
theorem all_fail_error_amended (fp256 fp384 fx25519 : Bool) (c : Ctors)
    (der : PrivateKeyDer) :
    (c.rsaTryFrom der).isOk = false →
    (fp256 = true → (c.p256TryFrom der).isOk = false) →
    (fp384 = true → (c.p384TryFrom der).isOk = false) →
    (fx25519 = true → (c.ed25519TryFrom der).isOk = false) →
    any_supported_type fp256 fp384 fx25519 c der
      = if fx25519 then c.ed25519TryFrom der
        else .error (.general "not supported") := by
  intro hr hp hq he
  cases fp256 <;> cases fp384 <;> cases fx25519 <;>
    cases hrE : c.rsaTryFrom der <;>
    cases hpE : c.p256TryFrom der <;>
    cases hqE : c.p384TryFrom der <;>
    cases heE : c.ed25519TryFrom der <;>
    simp_all [any_supported_type, any_ecdsa_type, any_eddsa_type,
      rOrElse, rMap, Except.isOk, Except.toBool]

/-- Witness for `all_fail_error_amended`: the all-fail bundle with all
features enabled yields the Ed25519 constructor's error. -/
theorem all_fail_error_amended_witness :
    any_supported_type true true true allFailCtors (.pkcs8 [0])
      = .error (.general "ed25519 parse error") := by
  have h := all_fail_error_amended true true true allFailCtors (.pkcs8 [0])
    rfl (fun _ => rfl) (fun _ => rfl) (fun _ => rfl)
  simpa using h

/-- A successful `find?` splits its list into a prefix of rejected
elements, the found element, and an unexamined remainder. -/
lemma find?_some_split {α : Type} (p : α → Bool) :
    ∀ (l : List α) (s : α), l.find? p = some s →
      p s = true ∧ ∃ l₁ l₂, l = l₁ ++ s :: l₂ ∧ ∀ x ∈ l₁, p x = false := by
  intro l
  induction l with
  | nil => intro s hs; simp at hs
  | cons a t ih =>
    intro s hs
    cases hp : p a with
    | true =>
      rw [List.find?_cons_of_pos _ hp] at hs
      cases hs
      exact ⟨hp, [], t, rfl, by simp⟩
    | false =>
      rw [List.find?_cons_of_neg _ (by simp [hp])] at hs
      obtain ⟨hps, l₁, l₂, heq, hl₁⟩ := ih s hs
      refine ⟨hps, a :: l₁, l₂, by simp [heq], ?_⟩
      intro x hx
      rcases List.mem_cons.mp hx with hxa | hxt
      · exact hxa ▸ hp
      · exact hl₁ x hxt

/-- C3: `chooseSigner` returns nothing exactly when the offered list
and the handle's supported set are disjoint, and a returned signer is
bound to the first offered scheme in the supported set: the offered
list splits as a prefix of unsupported schemes followed by the chosen
scheme.  Both parts are quantified over every offered list, hence hold
for all permutations of it. -/
theorem choose_signer_first_match (h : SigningKeyH)
    (offered : List SignatureScheme) :
    (h.chooseSigner offered = none ↔ ∀ s ∈ offered, s ∉ h.schemes)
    ∧ ∀ s, h.chooseSigner offered = some s →
        s ∈ h.schemes
        ∧ ∃ l₁ l₂, offered = l₁ ++ s :: l₂ ∧ ∀ x ∈ l₁, x ∉ h.schemes := by
  constructor
  · simp [SigningKeyH.chooseSigner, List.find?_eq_none]
  · intro s hs
    obtain ⟨hps, l₁, l₂, heq, hl₁⟩ :=
      find?_some_split (fun s => h.schemes.contains s) offered s hs
    refine ⟨by simpa using hps, l₁, l₂, heq, ?_⟩
    intro x hx
    simpa using hl₁ x hx

/-- Witness for `choose_signer_first_match`: an RSA handle offered
`[ECDSA_P256_SHA256, RSA_PKCS1_SHA256]` picks `RSA_PKCS1_SHA256`
(the first offered scheme it supports), which is in its scheme set. -/
theorem choose_signer_first_match_witness :
    SignatureScheme.rsa_pkcs1_sha256
      ∈ (SigningKeyH.mk .rsa [.rsa_pkcs1_sha256, .rsa_pss_sha256]).schemes :=
  ((choose_signer_first_match
      ⟨.rsa, [.rsa_pkcs1_sha256, .rsa_pss_sha256]⟩
      [.ecdsa_nistp256_sha256, .rsa_pkcs1_sha256]).2
    .rsa_pkcs1_sha256 (by decide)).1

/-! ## Claim theorems: signer adapters -/

/-- C4: every failure of the underlying primitive — whatever its cause
`e` — collapses to the one opaque `Error::General("signing failed")`
value, for the deterministic and the randomized adapter alike; and each
adapter's `sign` invokes its primitive exactly once per call: the
call-counted body agrees with `sign` and increments the primitive call
counter by exactly one. -/
theorem sign_opaque_failure_single_call (S T : Type) (impl : SignerImpl S T)
    (rimpl : RandSignerImpl S T) (self : GenericSigner S T)
    (rself : GenericRandomizedSigner S T) (m : List Nat) :
    (∀ e, impl.try_sign self.key m = .error e →
      GenericSigner.sign impl self m = .error (.general "signing failed"))
    ∧ (∀ e rng rng',
        rimpl.try_sign_with_rng rself.key rng m = (.error e, rng') →
        GenericRandomizedSigner.sign rimpl rself m rng
          = (.error (.general "signing failed"), rng'))
    ∧ (∀ calls, GenericSigner.signCounted impl self m calls
        = (GenericSigner.sign impl self m, calls + 1))
    ∧ (∀ rng calls, GenericRandomizedSigner.signCounted rimpl rself m rng calls
        = (GenericRandomizedSigner.sign rimpl rself m rng, calls + 1)) := by
  refine ⟨?_, ?_, fun _ => rfl, fun _ _ => rfl⟩
  · intro e he
    simp [GenericSigner.sign, rMap, rMapErr, he]
  · intro e rng rng' he
    simp [GenericRandomizedSigner.sign, rMap, rMapErr, he]

/-- A deterministic primitive that always fails, for witnesses. -/
def failDetImpl : SignerImpl (List Nat) Unit where
  try_sign := fun _ _ => .error ⟨"primitive rejected input"⟩
  to_vec := id

/-- A randomized primitive that always fails after consuming one
entropy value, for witnesses. -/
def failRandImpl : RandSignerImpl (List Nat) Unit where
  try_sign_with_rng := fun _ r _ =>
    (.error ⟨"randomness unavailable"⟩, ⟨r.stream, r.pos + 1⟩)
  to_vec := id

/-- A deterministic adapter over the unit key, for witnesses. -/
def unitDetSigner : GenericSigner (List Nat) Unit := ⟨(), .ed25519⟩

/-- A randomized adapter over the unit key, for witnesses. -/
def unitRandSigner : GenericRandomizedSigner (List Nat) Unit :=
  ⟨(), .ecdsa_nistp256_sha256⟩

/-- A concrete RNG state for witnesses: the identity stream at
position 0. -/
def rng0 : RngState := ⟨fun n => n, 0⟩

/-- Witness for `sign_opaque_failure_single_call`: both failing
primitives yield exactly `Error::General("signing failed")`. -/
theorem sign_opaque_failure_single_call_witness :
    GenericSigner.sign failDetImpl unitDetSigner [1, 2]
        = .error (.general "signing failed")
    ∧ GenericRandomizedSigner.sign failRandImpl unitRandSigner [1, 2] rng0
        = (.error (.general "signing failed"), ⟨rng0.stream, rng0.pos + 1⟩) :=
  ⟨(sign_opaque_failure_single_call (List Nat) Unit failDetImpl failRandImpl
        unitDetSigner unitRandSigner [1, 2]).1 ⟨"primitive rejected input"⟩ rfl,
    (sign_opaque_failure_single_call (List Nat) Unit failDetImpl failRandImpl
        unitDetSigner unitRandSigner [1, 2]).2.1 ⟨"randomness unavailable"⟩
      rng0 ⟨rng0.stream, rng0.pos + 1⟩ rfl⟩

/-- C5: on every invocation, the randomized adapter hands the
process-wide RNG, exactly in its current state, to the key's randomized
primitive — the primitive is applied at precisely
`(key, incoming rng, message)`, so the randomness is neither cached
from an earlier state nor derived from the message — and the advanced
state the primitive returns becomes the new process RNG state; hence,
whenever the primitive consumes entropy (strictly advances the stream
position), consecutive `sign` calls read strictly advancing, disjoint
stream segments: no random value is ever reused across calls. -/
theorem randomized_sign_fresh_randomness (S T : Type)
    (impl : RandSignerImpl S T) (self : GenericRandomizedSigner S T) :
    (∀ rng m, GenericRandomizedSigner.sign impl self m rng
      = (rMap (rMapErr (impl.try_sign_with_rng self.key rng m).1
          (fun _ => RError.general "signing failed")) impl.to_vec,
        (impl.try_sign_with_rng self.key rng m).2))
    ∧ ((∀ r m, r.pos < ((impl.try_sign_with_rng self.key r m).2).pos) →
        ∀ rng m₁ m₂,
          rng.pos < ((GenericRandomizedSigner.sign impl self m₁ rng).2).pos
          ∧ ((GenericRandomizedSigner.sign impl self m₁ rng).2).pos
              < ((GenericRandomizedSigner.sign impl self m₂
                  ((GenericRandomizedSigner.sign impl self m₁ rng).2)).2).pos) := by
  refine ⟨fun rng m => rfl, ?_⟩
  intro hadv rng m₁ m₂
  exact ⟨hadv rng m₁,
    hadv ((GenericRandomizedSigner.sign impl self m₁ rng).2) m₂⟩

/-- Witness for `randomized_sign_fresh_randomness`: with a primitive
consuming one entropy value per call, two consecutive calls advance the
stream position past 0 and then strictly further. -/
theorem randomized_sign_fresh_randomness_witness :
    rng0.pos
      < ((GenericRandomizedSigner.sign failRandImpl unitRandSigner [1] rng0).2).pos
    ∧ ((GenericRandomizedSigner.sign failRandImpl unitRandSigner [1] rng0).2).pos
      < ((GenericRandomizedSigner.sign failRandImpl unitRandSigner [2]
          ((GenericRandomizedSigner.sign failRandImpl unitRandSigner [1] rng0).2)).2).pos :=
  (randomized_sign_fresh_randomness (List Nat) Unit failRandImpl
    unitRandSigner).2 (fun r _ => Nat.lt_succ_self r.pos) rng0 [1] [2]

/-- C6: the deterministic adapter's `sign` never touches the mutable
RNG, so calling it twice with the identical message — in sequence, or
under arbitrarily different ambient RNG states — yields byte-identical
output. -/
theorem deterministic_sign_reproducible (S T : Type) (impl : SignerImpl S T)
    (m : List Nat) (w : DetWorld S T) :
    (detSignStep impl m ((detSignStep impl m w).2)).1 = (detSignStep impl m w).1
    ∧ ∀ rng' : RngState,
        (detSignStep impl m { signer := w.signer, rng := rng' }).1
          = (detSignStep impl m w).1 :=
  ⟨rfl, fun _ => rfl⟩

/-- C7: `scheme()` on either adapter returns exactly the
`SignatureScheme` the adapter was constructed with, for every key,
every message, and after a `sign` call regardless of its outcome. -/
theorem scheme_returns_bound_scheme (S T : Type) (k : T)
    (sc : SignatureScheme) (impl : SignerImpl S T)
    (rimpl : RandSignerImpl S T) (m : List Nat) (rng : RngState) :
    (GenericSigner.mk k sc : GenericSigner S T).scheme = sc
    ∧ (GenericRandomizedSigner.mk k sc : GenericRandomizedSigner S T).scheme = sc
    ∧ ((detSignStep impl m ⟨⟨k, sc⟩, rng⟩).2.signer).scheme = sc
    ∧ ((randSignStep rimpl m ⟨⟨k, sc⟩, rng⟩).2.signer).scheme = sc :=
  ⟨rfl, rfl, rfl, rfl⟩

/-- C10: a `sign` call is a frame for the adapter: the deterministic
step leaves its entire world untouched, and the randomized step writes
only the RNG component — the adapter (its key reference and its bound
scheme) is identical before and after, so `scheme()` agrees before and
after every `sign` invocation. -/
theorem sign_leaves_adapter_unchanged (S T : Type) (impl : SignerImpl S T)
    (rimpl : RandSignerImpl S T) (m : List Nat) (w : DetWorld S T)
    (w₂ : RandWorld S T) :
    (detSignStep impl m w).2 = w
    ∧ (randSignStep rimpl m w₂).2.signer = w₂.signer
    ∧ ((randSignStep rimpl m w₂).2.signer).key = w₂.signer.key
    ∧ ((randSignStep rimpl m w₂).2.signer).scheme = w₂.signer.scheme :=
  ⟨rfl, rfl, rfl, rfl⟩

end RustlsRustcrypto
